import Mathlib

/-
  Verification of the force-resolution core of `multibody_plant.cc` (the Drake
  MultibodyPlant). The C++ template scalar `T` is embedded as an arbitrary
  linear ordered field `α`, so every definition is executable at `α = ℚ`;
  external collaborators (std::sqrt, the spatial-algebra shift operators, the
  parameter-combination helpers defined outside this translation unit) are
  passed as explicit function parameters.
-/

namespace Drake

variable {α : Type} [LinearOrderedField α]

/-! ## Stribeck friction model (multibody_plant.cc:3319-3341) -/

/-- Embeds `MultibodyPlant::StribeckModel::step5` (multibody_plant.cc:3337):
`x3 * (10 + x * (6 * x - 15))`, i.e. the quintic smoothstep 10x³ − 15x⁴ + 6x⁵. -/
def step5 (x : α) : α :=
  let x3 := x * x * x
  x3 * (10 + x * (6 * x - 15))

/-- Embeds `MultibodyPlant::StribeckModel::ComputeFrictionCoefficient`
(multibody_plant.cc:3320).  `invVStictionTolerance` embeds the member
`inv_v_stiction_tolerance_`; `muD`/`muS` are the dynamic/static coefficients of
the combined `CoulombFriction` argument. -/
def ComputeFrictionCoefficient (invVStictionTolerance : α) (speedBcAc : α)
    (muS muD : α) : α :=
  let v := speedBcAc * invVStictionTolerance
  if 3 ≤ v then muD
  else if 1 ≤ v then muS - (muS - muD) * step5 ((v - 1) / 2)
  else muS * step5 v

/-! ## Joint limit penalty force (multibody_plant.cc:2145-2191) -/

/-- The lambda `CalcPenaltyForce` inside
`MultibodyPlant::AddJointLimitsPenaltyForces` (multibody_plant.cc:2152-2171). -/
def CalcPenaltyForce (lowerLimit upperLimit stiffness damping : α) (q v : α) : α :=
  if upperLimit < q then
    let deltaQ := q - upperLimit
    let limitForce := -stiffness * deltaQ - damping * v
    min limitForce 0
  else if q < lowerLimit then
    let deltaQ := q - lowerLimit
    let limitForce := -stiffness * deltaQ - damping * v
    max limitForce 0
  else 0

/-! ## Joint limit penalty parameter estimation (multibody_plant.cc:104-167) -/

/-- An IEEE-double value as used by `JointLimitsPenaltyParametersEstimator`: a
finite value, +∞, or NaN.  Negative infinities cannot arise in this code path
(every inertia, period and constant that enters is nonnegative), so they are
not represented. -/
inductive DReal (α : Type) where
  | fin (x : α)
  | inf
  | nan
deriving DecidableEq

/-- IEEE multiplication on `DReal`.  NaN propagates; ∞ times a positive finite
value is ∞.  ∞ times a nonpositive finite value (which would be ±∞ or NaN in
IEEE and never occurs in the estimator) is collapsed to NaN. -/
def DReal.mul : DReal α → DReal α → DReal α
  | .nan, _ => .nan
  | _, .nan => .nan
  | .inf, .inf => .inf
  | .inf, .fin y => if 0 < y then .inf else .nan
  | .fin x, .inf => if 0 < x then .inf else .nan
  | .fin x, .fin y => .fin (x * y)

/-- IEEE `std::sqrt` lifted to `DReal`, given the finite square-root function
`s` of the external math library: sqrt NaN = NaN, sqrt ∞ = ∞, and the square
root of a negative finite value is NaN. -/
def DReal.sqrtD (s : α → α) : DReal α → DReal α
  | .nan => .nan
  | .inf => .inf
  | .fin x => if x < 0 then .nan else .fin (s x)

/-- IEEE `<` on `DReal`: every comparison involving NaN is false. -/
def DReal.ltD : DReal α → DReal α → Bool
  | .nan, _ => false
  | _, .nan => false
  | .inf, _ => false
  | _, .inf => true
  | .fin x, .fin y => decide (x < y)

/-- Embeds `JointLimitsPenaltyParametersEstimator::CalcCriticallyDampedHarmonicOscillatorParameters`
(multibody_plant.cc:115-123).  `twoPi` stands for the double constant
`2.0 * M_PI` and `s` for the math-library `std::sqrt`.  Returns the pair
(stiffness, damping). -/
def CalcCriticallyDampedHarmonicOscillatorParameters (twoPi : α) (s : α → α)
    (period : α) (inertia : DReal α) : DReal α × DReal α :=
  let dampingRatio : α := 1
  let omega0 : α := twoPi / period
  let stiffness := (inertia.mul (.fin omega0)).mul (.fin omega0)
  let damping :=
    (DReal.fin (2 * dampingRatio)).mul ((inertia.mul stiffness).sqrtD s)
  (stiffness, damping)

/-- Embeds `JointLimitsPenaltyParametersEstimator::PickLessStiffPenaltyParameters`
(multibody_plant.cc:129-139). -/
def PickLessStiffPenaltyParameters (params1 params2 : DReal α × DReal α) :
    DReal α × DReal α :=
  let stiffness1 := params1.1
  let stiffness2 := params2.1
  if stiffness1.ltD stiffness2 then params1 else params2

/-- One side (parent or child body) of a joint as consulted by
`CalcPrismaticJointPenaltyParameters` (multibody_plant.cc:150-159): whether
that body is the world body, and its default mass (`DReal.nan` when the user
left the mass unspecified). -/
structure JointBodySide (α : Type) where
  isWorld : Bool
  defaultMass : DReal α
deriving DecidableEq

/-- Embeds `JointLimitsPenaltyParametersEstimator::CalcPrismaticJointPenaltyParameters`
(multibody_plant.cc:148-167).  Note the source substitutes +∞ for the mass
only when a body is the world body; a NaN (unspecified) default mass is used
as is (the NaN guard exists only in the revolute path, multibody_plant.cc:203). -/
def CalcPrismaticJointPenaltyParameters (twoPi : α) (s : α → α)
    (parent child : JointBodySide α) (numericalTimeScale : α) :
    DReal α × DReal α :=
  let parentMass := if parent.isWorld then DReal.inf else parent.defaultMass
  let parentParams := CalcCriticallyDampedHarmonicOscillatorParameters twoPi s
    numericalTimeScale parentMass
  let childMass := if child.isWorld then DReal.inf else child.defaultMass
  let childParams := CalcCriticallyDampedHarmonicOscillatorParameters twoPi s
    numericalTimeScale childMass
  PickLessStiffPenaltyParameters parentParams childParams

/-! ## Discrete time step (multibody_plant.cc:2539-2577) -/

/-- Embeds `MultibodyPlant::CalcDiscreteStep` (multibody_plant.cc:2539-2577) in the
branch without an installed pluggable discrete update manager
(`discrete_update_manager_ == nullptr`).  The discrete state is the pair
`(q0, v0)`; `evalForwardDynamicsVdot` embeds
`EvalForwardDynamics(context0).get_vdot()` and `mapVelocityToQDot` the
kinematics provider call `MapVelocityToQDot(context0, v_next, ...)`, both as
functions of the state stored in `context0` (positions `q0`).  The next state
`x_next = (q_next, v_next)` is returned as one value, matching the single
`updates->set_value(0, x_next)` write. -/
def CalcDiscreteStep {nq nv : ℕ} (timeStep : α)
    (evalForwardDynamicsVdot : (Fin nq → α) → (Fin nv → α) → (Fin nv → α))
    (mapVelocityToQDot : (Fin nq → α) → (Fin nv → α) → (Fin nq → α))
    (x0 : (Fin nq → α) × (Fin nv → α)) : (Fin nq → α) × (Fin nv → α) :=
  let q0 := x0.1
  let v0 := x0.2
  let vdot := evalForwardDynamicsVdot q0 v0
  let vNext := fun i => v0 i + timeStep * vdot i
  let qdotNext := mapVelocityToQDot q0 vNext
  let qNext := fun i => q0 i + timeStep * qdotNext i
  (qNext, vNext)

/-! ## Algebraic-loop guard (multibody_plant.cc:2437-2499) -/

/-- First sentence of the error message thrown by
`ThrowIfNonContactForceInProgress` (multibody_plant.cc:2476-2487); the
remainder of the diagnostic text (remediation guidance) is elided here. -/
def algebraicLoopMessage : String := "Algebraic loop detected."

/-- Embeds `MultibodyPlant::CalcNonContactForces` (multibody_plant.cc:2438-2464)
composed with `ThrowIfNonContactForceInProgress` (multibody_plant.cc:2466-2499)
and its `ScopeExit`.  The threaded state is the boolean cache marker
`non_contact_forces_evaluation_in_progress`.  `body` stands for the rest of
the computation (force elements, input-port forces, joint-limit penalties): it
receives the marker value (just set to true) and either returns the marker
state it left behind or propagates an error.  The `ScopeExit` resets the
marker to false on every exit path, including the error path. -/
def CalcNonContactForces (body : Bool → Except String Bool)
    (inProgress : Bool) : Except String Unit × Bool :=
  if inProgress then (Except.error algebraicLoopMessage, inProgress)
  else
    match body true with
    | .ok _ => (Except.ok (), false)
    | .error e => (Except.error e, false)

/-- A body that re-enters non-contact-force evaluation: the algebraic-loop
scenario in which pulling on a plant input port during the computation
re-triggers `CalcNonContactForces` on the same context (issue #12786 noted at
multibody_plant.cc:2468). -/
def reentrantBody (innerBody : Bool → Except String Bool) :
    Bool → Except String Bool :=
  fun marker =>
    match CalcNonContactForces innerBody marker with
    | (.ok _, m) => .ok m
    | (.error e, _) => .error e

/-! ## Actuation input assembly (multibody_plant.cc:2193-2255) -/

/-- A non-world model instance as consulted by `AssembleActuationInput`: its
name, its number of actuated degrees of freedom
(`num_actuated_dofs(model_instance_index)`), and the value on its per-instance
actuation input port (`none` when the port has no value). -/
structure ModelInstanceActuation (α : Type) where
  name : String
  numActuatedDofs : ℕ
  port : Option (List α)

/-- Error text of multibody_plant.cc:2212-2216. -/
def bothConnectedMessage (instanceName : String) : String :=
  "Actuation input port for model instance " ++ instanceName ++
    " and the actuation port for all instances are both connected. At most " ++
    "one of these ports should be connected."

/-- Error text of multibody_plant.cc:2237-2239. -/
def mustBeConnectedMessage (instanceName : String) : String :=
  "Actuation input port for model instance " ++ instanceName ++
    " must be connected."

/-- The per-instance branch of `AssembleActuationInput`
(multibody_plant.cc:2227-2252): instances with no actuated DoFs are skipped;
an instance with actuated DoFs whose port has no value raises the
must-be-connected error (the first such instance in index order, since the
loop throws at the first violation); otherwise the per-instance values are
written segment by segment in instance order, here a concatenation. -/
def assemblePerInstanceActuation :
    List (ModelInstanceActuation α) → Except String (List α)
  | [] => .ok []
  | m :: rest =>
    if m.numActuatedDofs = 0 then assemblePerInstanceActuation rest
    else
      match m.port with
      | none => .error (mustBeConnectedMessage m.name)
      | some u =>
        match assemblePerInstanceActuation rest with
        | .ok us => .ok (u ++ us)
        | .error e => .error e

/-- Embeds `MultibodyPlant::AssembleActuationInput` (multibody_plant.cc:2193-2255).
`allInstancesPort` holds the value of the actuation port for all instances
(`none` when it has no value); `instances` lists the model instances from
`first_non_world_index = 1` upward in index order.  When the all-instances
port has a value, the source scans every instance in order and throws at the
first whose own actuation port also has a value (multibody_plant.cc:2207-2218),
modelled by `List.find?`.  The NaN checks of the source are not represented
(an exact field has no NaN). -/
def AssembleActuationInput (allInstancesPort : Option (List α))
    (instances : List (ModelInstanceActuation α)) : Except String (List α) :=
  match allInstancesPort with
  | some u =>
    match instances.find? (fun m => m.port.isSome) with
    | some m => .error (bothConnectedMessage m.name)
    | none => .ok u
  | none => assemblePerInstanceActuation instances

/-! ## Hydroelastic combined friction (multibody_plant.cc:1954-1980) -/

/-- Embeds `CoulombFriction`: static and dynamic friction coefficients. -/
structure CoulombFrictionCoeffs (α : Type) where
  staticFriction : α
  dynamicFriction : α
deriving DecidableEq

/-- The friction-combination portion of
`MultibodyPlant::CalcHydroelasticContactForces` for one contact surface
(multibody_plant.cc:1954-1980).  `proximityFriction` maps a geometry id to the
`kFriction` entry of its proximity properties and `combine` embeds the
externally defined `CalcContactFrictionFromSurfaceProperties`.  It returns the
`dynamic_friction` handed to the hydroelastic traction calculator.  Faithful
to multibody_plant.cc:1960-1961, where `propN` is read with `geometryM_id`,
the N-side coefficients are looked up at `geometryMId`. -/
def hydroelasticSurfaceDynamicFriction
    (combine : CoulombFrictionCoeffs α → CoulombFrictionCoeffs α →
      CoulombFrictionCoeffs α)
    (proximityFriction : ℕ → CoulombFrictionCoeffs α)
    (geometryMId geometryNId : ℕ) : α :=
  let geometryMFriction := proximityFriction geometryMId
  let geometryNFriction := proximityFriction geometryMId
  (combine geometryMFriction geometryNFriction).dynamicFriction

/-! ## Vectors and spatial algebra -/

/-- A 3-vector (Eigen `Vector3<T>`). -/
structure V3 (α : Type) where
  x : α
  y : α
  z : α
deriving DecidableEq

instance : Add (V3 α) := ⟨fun a b => ⟨a.x + b.x, a.y + b.y, a.z + b.z⟩⟩

instance : Sub (V3 α) := ⟨fun a b => ⟨a.x - b.x, a.y - b.y, a.z - b.z⟩⟩

instance : Neg (V3 α) := ⟨fun a => ⟨-a.x, -a.y, -a.z⟩⟩

instance : Zero (V3 α) := ⟨⟨0, 0, 0⟩⟩

instance : SMul α (V3 α) := ⟨fun c a => ⟨c * a.x, c * a.y, c * a.z⟩⟩

/-- Dot product. -/
def V3.dot (a b : V3 α) : α := a.x * b.x + a.y * b.y + a.z * b.z

/-- Cross product. -/
def V3.cross (a b : V3 α) : V3 α :=
  ⟨a.y * b.z - a.z * b.y, a.z * b.x - a.x * b.z, a.x * b.y - a.y * b.x⟩

/-- Embeds `SpatialVelocity<T>`: rotational (ω) and translational (v) components. -/
structure SpatialVelocityV (α : Type) where
  rot : V3 α
  trans : V3 α

/-- Embeds `SpatialVelocity::Shift(p)` per the Drake spatial-algebra convention (the
operator lives outside this translation unit): the angular component is
unchanged and the translational component becomes v + ω × p. -/
def SpatialVelocityV.shift (V : SpatialVelocityV α) (p : V3 α) :
    SpatialVelocityV α :=
  ⟨V.rot, V.trans + V.rot.cross p⟩

/-- Embeds `SpatialForce<T>`: rotational (torque) and translational (force)
components. -/
structure SpatialForceV (α : Type) where
  rot : V3 α
  trans : V3 α
deriving DecidableEq

instance : Add (SpatialForceV α) := ⟨fun a b => ⟨a.rot + b.rot, a.trans + b.trans⟩⟩

instance : Neg (SpatialForceV α) := ⟨fun a => ⟨-a.rot, -a.trans⟩⟩

instance : Zero (SpatialForceV α) := ⟨⟨0, 0⟩⟩

/-! ## Continuous point-pair contact results (multibody_plant.cc:1731-1844) -/

/-- One `PenetrationAsPointPair` as produced by the geometry query
collaborator: penetration depth `x ≥ 0`, the contact normal `nhat_BA_W`, and
the witness points on the two geometries. -/
structure PenetrationAsPointPairData (α : Type) where
  depth : α
  nhat_BA_W : V3 α
  p_WCa : V3 α
  p_WCb : V3 α
deriving DecidableEq

/-- The record handed to `ContactResults::AddContactInfo` for one point pair
(multibody_plant.cc:1840-1841): force on body B at the contact point, the
contact point, the stored relative normal velocity `vn`, and the slip speed. -/
structure PointPairContactInfoData (α : Type) where
  f_Bc_W : V3 α
  p_WC : V3 α
  vn : α
  slip : α
deriving DecidableEq

/-- The per-pair body of
`MultibodyPlant::AppendContactResultsContinuousPointPair`
(multibody_plant.cc:1751-1842) for one point pair.  Besides the pair, the
inputs are: the body origin positions `p_WAo`, `p_WBo` from the position
kinematics cache; the body spatial velocities `V_WA`, `V_WB` from the
velocity kinematics cache; the per-geometry stiffness/dissipation
`(kA, dA)`, `(kB, dB)` from `GetPointContactParameters`; the externally
defined `internal::CombinePointContactParameters` as `combineParams`; the
combined friction coefficients `(muS, muD)` from
`CalcContactFrictionFromSurfaceProperties`; the Stribeck model field
`inv_v_stiction_tolerance_`; and the math-library `std::sqrt` as `sqrtF`.
Returns the contact info added for the pair, or `none` when `fn_AC ≤ 0` and
no force is added. -/
def AppendContactResultsContinuousPointPair
    (sqrtF : α → α) (invVStictionTolerance : α)
    (combineParams : α → α → α → α → α × α)
    (pair : PenetrationAsPointPairData α)
    (p_WAo p_WBo : V3 α) (V_WA V_WB : SpatialVelocityV α)
    (kA kB dA dB muS muD : α) :
    Option (PointPairContactInfoData α) :=
  let x := pair.depth
  let nhat_BA_W := pair.nhat_BA_W
  let p_WC : V3 α := (1 / 2 : α) • (pair.p_WCa + pair.p_WCb)
  let p_CoAo_W := p_WAo - p_WC
  let p_CoBo_W := p_WBo - p_WC
  let v_WAc := (V_WA.shift (-p_CoAo_W)).trans
  let v_WBc := (V_WB.shift (-p_CoBo_W)).trans
  let v_AcBc_W := v_WBc - v_WAc
  let vn := v_AcBc_W.dot nhat_BA_W
  let kd := combineParams kA kB dA dB
  let fn_AC := kd.1 * x * (1 + kd.2 * vn)
  if 0 < fn_AC then
    let fn_AC_W := fn_AC • nhat_BA_W
    let vt_AcBc_W := v_AcBc_W - vn • nhat_BA_W
    let vt_squared := vt_AcBc_W.dot vt_AcBc_W
    let kNonZeroSqd : α := (1 / 10 ^ 14) * (1 / 10 ^ 14)
    let slip_velocity : α :=
      if kNonZeroSqd < vt_squared then sqrtF vt_squared else 0
    let ft_AC_W : V3 α :=
      if kNonZeroSqd < vt_squared then
        (ComputeFrictionCoefficient invVStictionTolerance (sqrtF vt_squared)
            muS muD * fn_AC) • ((1 / sqrtF vt_squared) • vt_AcBc_W)
      else 0
    some ⟨-(fn_AC_W + ft_AC_W), p_WC, vn, slip_velocity⟩
  else none

/-! ## Contact force accumulation (multibody_plant.cc:1854-1911, 1922-2026) -/

/-- One `PointPairContactInfo` as read back by the accumulation loop of
`CalcAndAddContactForcesByPenaltyMethod`: the two body indices resolved by
`FindBodyByGeometryId`, the reported contact force on body B, and the contact
point. -/
structure PointPairContactRecord (α : Type) where
  bodyA_index : ℕ
  bodyB_index : ℕ
  f_Bc_W : V3 α
  p_WC : V3 α

/-- One iteration of the accumulation loop of
`MultibodyPlant::CalcAndAddContactForcesByPenaltyMethod`
(multibody_plant.cc:1868-1910).  `shiftF` embeds the external
`SpatialForce::Shift`, `nodeIndex` the map from body index to
`BodyNodeIndex` (the array is indexed by node index), and `X_WB_translation`
the body origin positions of the position kinematics cache. -/
def penaltyMethodLoopBody
    (shiftF : SpatialForceV α → V3 α → SpatialForceV α)
    (worldIndex : ℕ) (nodeIndex : ℕ → ℕ) (X_WB_translation : ℕ → V3 α)
    (F : ℕ → SpatialForceV α) (c : PointPairContactRecord α) :
    ℕ → SpatialForceV α :=
  let p_WC := c.p_WC
  let p_CoAo_W := X_WB_translation (nodeIndex c.bodyA_index) - p_WC
  let p_CoBo_W := X_WB_translation (nodeIndex c.bodyB_index) - p_WC
  let F_AC_W : SpatialForceV α := ⟨0, -c.f_Bc_W⟩
  let F1 :=
    if c.bodyA_index ≠ worldIndex then
      Function.update F (nodeIndex c.bodyA_index)
        (F (nodeIndex c.bodyA_index) + shiftF F_AC_W p_CoAo_W)
    else F
  if c.bodyB_index ≠ worldIndex then
    Function.update F1 (nodeIndex c.bodyB_index)
      (F1 (nodeIndex c.bodyB_index) + (-(shiftF F_AC_W p_CoBo_W)))
  else F1

/-- Embeds the accumulation loop of
`MultibodyPlant::CalcAndAddContactForcesByPenaltyMethod` over all point-pair
contacts (multibody_plant.cc:1868-1910),
additively mutating the per-body force accumulator `F_BBo_W_array`. -/
def CalcAndAddContactForcesByPenaltyMethod
    (shiftF : SpatialForceV α → V3 α → SpatialForceV α)
    (worldIndex : ℕ) (nodeIndex : ℕ → ℕ) (X_WB_translation : ℕ → V3 α)
    (contacts : List (PointPairContactRecord α))
    (F_BBo_W_array : ℕ → SpatialForceV α) : ℕ → SpatialForceV α :=
  contacts.foldl (penaltyMethodLoopBody shiftF worldIndex nodeIndex
    X_WB_translation) F_BBo_W_array

/-- One iteration of the per-surface loop of
`MultibodyPlant::CalcHydroelasticContactForces` (multibody_plant.cc:1954-2025)
for the surface with geometry ids `s = (idM, idN)`: the resultant spatial
forces shifted to the two body origins — produced by the external
`HydroelasticTractionCalculator`, embedded as `tractionForces` — are added at
the node indices of the two bodies.  `geomToBody` embeds `FindBodyByGeometryId`. -/
def hydroelasticLoopBody
    (geomToBody : ℕ → ℕ) (worldIndex : ℕ) (nodeIndex : ℕ → ℕ)
    (tractionForces : ℕ → ℕ → SpatialForceV α × SpatialForceV α)
    (F : ℕ → SpatialForceV α) (s : ℕ × ℕ) : ℕ → SpatialForceV α :=
  let bodyA_index := geomToBody s.1
  let bodyB_index := geomToBody s.2
  let FAoBo := tractionForces s.1 s.2
  let F1 :=
    if bodyA_index ≠ worldIndex then
      Function.update F (nodeIndex bodyA_index)
        (F (nodeIndex bodyA_index) + FAoBo.1)
    else F
  if bodyB_index ≠ worldIndex then
    Function.update F1 (nodeIndex bodyB_index)
      (F1 (nodeIndex bodyB_index) + FAoBo.2)
  else F1

/-- The body-force part of `MultibodyPlant::CalcHydroelasticContactForces`
(multibody_plant.cc:1922-2026): the accumulator is first zeroed
(multibody_plant.cc:1937) and then the contribution of every contact surface is
accumulated. -/
def CalcHydroelasticContactForces
    (geomToBody : ℕ → ℕ) (worldIndex : ℕ) (nodeIndex : ℕ → ℕ)
    (tractionForces : ℕ → ℕ → SpatialForceV α × SpatialForceV α)
    (surfaces : List (ℕ × ℕ)) : ℕ → SpatialForceV α :=
  surfaces.foldl (hydroelasticLoopBody geomToBody worldIndex nodeIndex
    tractionForces) (fun _ => 0)

/-! ## Geometry-input guards (multibody_plant.cc:1104-1152, 1651-1662, 1854-1861) -/

/-- First sentence of the error thrown by `ThrowForDisconnectedGeometryPort`
(multibody_plant.cc:1104-1112); the remediation text is elided. -/
def disconnectedGeometryPortMessage (explanation : String) : String :=
  explanation ++
    " The provided context was not connected to a valid geometry query input port."

/-- Embeds `MultibodyPlant::IsValidGeometryInput` (multibody_plant.cc:1147-1152). -/
def IsValidGeometryInput (numCollisionGeometries : ℕ)
    (geometryQueryPortHasValue : Bool) : Bool :=
  decide (numCollisionGeometries = 0) || geometryQueryPortHasValue

/-- Embeds `MultibodyPlant::EvalGeometryQueryInput` (multibody_plant.cc:1117-1126).
The geometry query input port is modelled by the value it carries (`none`
when disconnected); a `QueryObject` is modelled by the penetration list its
`ComputePointPairPenetration` returns. -/
def EvalGeometryQueryInput (port : Option (List (PenetrationAsPointPairData α)))
    (explanation : String) :
    Except String (List (PenetrationAsPointPairData α)) :=
  match port with
  | none => .error (disconnectedGeometryPortMessage explanation)
  | some queryObject => .ok queryObject

/-- Embeds `MultibodyPlant::CalcPointPairPenetrations` (multibody_plant.cc:1651-1662). -/
def CalcPointPairPenetrations (numCollisionGeometries : ℕ)
    (port : Option (List (PenetrationAsPointPairData α))) :
    Except String (List (PenetrationAsPointPairData α)) :=
  if 0 < numCollisionGeometries then
    match EvalGeometryQueryInput port "CalcPointPairPenetrations" with
    | .ok queryObject => .ok queryObject
    | .error e => .error e
  else .ok []

/-- The entry guard of `CalcAndAddContactForcesByPenaltyMethod`
(multibody_plant.cc:1854-1861): with zero collision geometries the function
returns with the accumulator untouched, before the contact results — and
hence the geometry query input port — are evaluated; otherwise the contact
results are computed from the port and accumulated.  `contactResultsOf`
embeds `EvalContactResults` applied to the penetration list. -/
def CalcAndAddContactForcesByPenaltyMethodGuarded
    (shiftF : SpatialForceV α → V3 α → SpatialForceV α)
    (worldIndex : ℕ) (nodeIndex : ℕ → ℕ) (X_WB_translation : ℕ → V3 α)
    (contactResultsOf :
      List (PenetrationAsPointPairData α) → List (PointPairContactRecord α))
    (numCollisionGeometries : ℕ)
    (port : Option (List (PenetrationAsPointPairData α)))
    (F_BBo_W_array : ℕ → SpatialForceV α) :
    Except String (ℕ → SpatialForceV α) :=
  if numCollisionGeometries = 0 then .ok F_BBo_W_array
  else
    match EvalGeometryQueryInput port
        "CalcAndAddContactForcesByPenaltyMethod" with
    | .error e => .error e
    | .ok pairs =>
      .ok (CalcAndAddContactForcesByPenaltyMethod shiftF worldIndex nodeIndex
        X_WB_translation (contactResultsOf pairs) F_BBo_W_array)

/-! ## Claim theorems -/

/-- Components of a vector sum. -/
theorem V3.add_def (a b : V3 α) :
    a + b = ⟨a.x + b.x, a.y + b.y, a.z + b.z⟩ := rfl

/-- Components of a vector difference. -/
theorem V3.sub_def (a b : V3 α) :
    a - b = ⟨a.x - b.x, a.y - b.y, a.z - b.z⟩ := rfl

/-- Components of a negated vector. -/
theorem V3.neg_def (a : V3 α) : -a = ⟨-a.x, -a.y, -a.z⟩ := rfl

/-- Components of a scaled vector. -/
theorem V3.smul_def (s : α) (a : V3 α) :
    s • a = ⟨s * a.x, s * a.y, s * a.z⟩ := rfl

/-- Components of the zero vector. -/
theorem V3.zero_def : (0 : V3 α) = ⟨0, 0, 0⟩ := rfl

/-- Dot product distributes over vector subtraction. -/
theorem V3.sub_dot (a b c : V3 α) : (a - b).dot c = a.dot c - b.dot c := by
  simp only [V3.dot, V3.sub_def]
  ring

/-- Dot product pulls out scalar multiplication. -/
theorem V3.smul_dot (s : α) (a b : V3 α) : (s • a).dot b = s * a.dot b := by
  simp only [V3.dot, V3.smul_def]
  ring

/-- The zero vector is orthogonal to everything. -/
theorem V3.zero_dot (b : V3 α) : (0 : V3 α).dot b = 0 := by
  simp only [V3.dot, V3.zero_def]
  ring

/-- Dot product of a negated vector. -/
theorem V3.neg_dot (a b : V3 α) : (-a).dot b = -(a.dot b) := by
  simp only [V3.dot, V3.neg_def]
  ring

/-- Dot product distributes over vector addition. -/
theorem V3.add_dot (a b c : V3 α) : (a + b).dot c = a.dot c + b.dot c := by
  simp only [V3.dot, V3.add_def]
  ring

/-- C4: For every slip speed ≥ 0 and friction coefficients μ_s ≥ μ_d ≥ 0, with
`v = slip_speed / stiction_tolerance`, the Stribeck friction coefficient equals
`μ_s * s5 v` for `v ∈ [0,1)`, equals `μ_s - (μ_s - μ_d) * s5 ((v-1)/2)` for
`v ∈ [1,3)`, and equals `μ_d` for `v ≥ 3`, where `s5 x = 10x³ - 15x⁴ + 6x⁵`;
both branch formulas agree (with value μ_s) at v = 1 and (with value μ_d) at
v = 3, so the function is continuous there. -/
theorem stribeck_coefficient_piecewise (slip tol muS muD : α)
    (hslip : 0 ≤ slip) (htol : 0 < tol) (hsd : muD ≤ muS) (hd : 0 ≤ muD) :
    (slip / tol < 1 →
      ComputeFrictionCoefficient tol⁻¹ slip muS muD = muS * step5 (slip / tol)) ∧
    (1 ≤ slip / tol → slip / tol < 3 →
      ComputeFrictionCoefficient tol⁻¹ slip muS muD
        = muS - (muS - muD) * step5 ((slip / tol - 1) / 2)) ∧
    (3 ≤ slip / tol → ComputeFrictionCoefficient tol⁻¹ slip muS muD = muD) ∧
    (muS * step5 (1 : α) = muS ∧ muS - (muS - muD) * step5 (((1 : α) - 1) / 2) = muS) ∧
    (muS - (muS - muD) * step5 (((3 : α) - 1) / 2) = muD) := by
  have hv : slip * tol⁻¹ = slip / tol := by rw [div_eq_mul_inv]
  refine ⟨?_, ?_, ?_, ⟨?_, ?_⟩, ?_⟩
  · intro h1
    rw [ComputeFrictionCoefficient]
    simp only [hv]
    rw [if_neg (by linarith), if_neg (by linarith)]
  · intro h1 h3
    rw [ComputeFrictionCoefficient]
    simp only [hv]
    rw [if_neg (by linarith), if_pos h1]
  · intro h3
    rw [ComputeFrictionCoefficient]
    simp only [hv]
    rw [if_pos h3]
  · rw [step5]; ring
  · rw [step5]; ring
  · rw [step5]; ring

/-- Witness for `stribeck_coefficient_piecewise` at slip = 1/2, tol = 1,
μ_s = 1, μ_d = 1/2: v = 1/2 lies in the first branch. -/
theorem stribeck_coefficient_piecewise_witness :
    (0 : ℚ) ≤ 1/2 ∧ (0 : ℚ) < 1 ∧ (1/2 : ℚ) ≤ 1 ∧ (0 : ℚ) ≤ 1/2 ∧
    ComputeFrictionCoefficient (1 : ℚ)⁻¹ (1/2) 1 (1/2)
      = 1 * step5 ((1/2 : ℚ) / 1) := by
  refine ⟨by norm_num, by norm_num, by norm_num, by norm_num, ?_⟩
  exact (stribeck_coefficient_piecewise (1/2) 1 1 (1/2) (by norm_num)
    (by norm_num) (by norm_num) (by norm_num)).1 (by norm_num)

/-- C5: For every joint with limits lower ≤ upper and penalty parameters
k ≥ 0, d ≥ 0, the joint limit penalty force is 0 whenever lower ≤ q ≤ upper
(in particular exactly 0 at q = lower and q = upper), equals
min(-k*(q-upper) - d*v, 0) when q > upper, and equals
max(-k*(q-lower) - d*v, 0) when q < lower. -/
theorem joint_limit_penalty_force_cases (lower upper k d q v : α)
    (hlim : lower ≤ upper) (hk : 0 ≤ k) (hd : 0 ≤ d) :
    (lower ≤ q → q ≤ upper → CalcPenaltyForce lower upper k d q v = 0) ∧
    CalcPenaltyForce lower upper k d lower v = 0 ∧
    CalcPenaltyForce lower upper k d upper v = 0 ∧
    (upper < q →
      CalcPenaltyForce lower upper k d q v = min (-k * (q - upper) - d * v) 0) ∧
    (q < lower →
      CalcPenaltyForce lower upper k d q v = max (-k * (q - lower) - d * v) 0) := by
  refine ⟨?_, ?_, ?_, ?_, ?_⟩
  · intro hlo hup
    rw [CalcPenaltyForce, if_neg (by linarith), if_neg (by linarith)]
  · rw [CalcPenaltyForce, if_neg (by linarith), if_neg (by linarith)]
  · rw [CalcPenaltyForce, if_neg (by linarith), if_neg (by linarith)]
  · intro hq
    rw [CalcPenaltyForce, if_pos hq]
  · intro hq
    rw [CalcPenaltyForce, if_neg (by linarith), if_pos hq]

/-- Witness for `joint_limit_penalty_force_cases` at lower = -1, upper = 1,
k = 2, d = 3, q = 0 (inside the limits), v = 5. -/
theorem joint_limit_penalty_force_cases_witness :
    (-1 : ℚ) ≤ 1 ∧ (0 : ℚ) ≤ 2 ∧ (0 : ℚ) ≤ 3 ∧
    CalcPenaltyForce (-1 : ℚ) 1 2 3 0 5 = 0 := by
  refine ⟨by norm_num, by norm_num, by norm_num, ?_⟩
  exact (joint_limit_penalty_force_cases (-1 : ℚ) 1 2 3 0 5 (by norm_num)
    (by norm_num) (by norm_num)).1 (by norm_num) (by norm_num)

/-- C8 counterexample: the claim says the inertia of a side is infinite when that
side is the world body or the mass of the body is unspecified (NaN).  For a
prismatic joint the source has no NaN-mass guard (multibody_plant.cc:151-159),
so with parent = world and a child of unspecified (NaN) mass the code yields
the pair (NaN, NaN), whereas the inertia rule of the claim (both sides infinite)
yields (∞, ∞). -/
theorem prismatic_penalty_nan_mass_counterexample :
    CalcPrismaticJointPenaltyParameters (6 : ℚ) id
      ⟨true, .fin 1⟩ ⟨false, .nan⟩ 1 = (.nan, .nan) ∧
    PickLessStiffPenaltyParameters
      (CalcCriticallyDampedHarmonicOscillatorParameters (6 : ℚ) id 1 .inf)
      (CalcCriticallyDampedHarmonicOscillatorParameters (6 : ℚ) id 1 .inf)
      = (.inf, .inf) ∧
    (DReal.nan : DReal ℚ) ≠ .inf := by
  refine ⟨?_, ?_, fun h => DReal.noConfusion h⟩
  · rw [CalcPrismaticJointPenaltyParameters]
    norm_num [CalcCriticallyDampedHarmonicOscillatorParameters, DReal.mul,
      DReal.sqrtD, PickLessStiffPenaltyParameters, DReal.ltD]
  · norm_num [CalcCriticallyDampedHarmonicOscillatorParameters, DReal.mul,
      DReal.sqrtD, PickLessStiffPenaltyParameters, DReal.ltD]

/-- C8 (amended): for a prismatic joint the pair selected is whichever
body-side estimate has the smaller stiffness under the IEEE `<` comparison,
where the estimate of each side uses stiffness = inertia·(2π/τ)² and damping =
2·sqrt(inertia·stiffness), and the inertia of a side is infinite exactly when that
side is the world body — an unspecified (NaN) mass is used as is (it is not
replaced by infinity; that replacement happens only in the revolute path). -/
theorem prismatic_penalty_parameters_amended (twoPi tau m mp mc : α)
    (s : α → α) (parent child : JointBodySide α)
    (hw : 0 < twoPi / tau) (hm : 0 ≤ m) (hmp : 0 ≤ mp) (hmc : 0 ≤ mc) :
    (CalcPrismaticJointPenaltyParameters twoPi s parent child tau
      = PickLessStiffPenaltyParameters
          (CalcCriticallyDampedHarmonicOscillatorParameters twoPi s tau
            (if parent.isWorld then DReal.inf else parent.defaultMass))
          (CalcCriticallyDampedHarmonicOscillatorParameters twoPi s tau
            (if child.isWorld then DReal.inf else child.defaultMass))) ∧
    (CalcCriticallyDampedHarmonicOscillatorParameters twoPi s tau (.fin m)
      = (.fin (m * (twoPi / tau) * (twoPi / tau)),
          .fin (2 * s (m * (m * (twoPi / tau) * (twoPi / tau)))))) ∧
    (CalcPrismaticJointPenaltyParameters twoPi s
        ⟨false, .fin mp⟩ ⟨false, .fin mc⟩ tau
      = CalcCriticallyDampedHarmonicOscillatorParameters twoPi s tau
          (.fin (min mp mc))) := by
  have hosc : ∀ x : α, 0 ≤ x →
      CalcCriticallyDampedHarmonicOscillatorParameters twoPi s tau (.fin x)
        = (.fin (x * (twoPi / tau) * (twoPi / tau)),
            .fin (2 * s (x * (x * (twoPi / tau) * (twoPi / tau))))) := by
    intro x hx
    have hnn : ¬ (x * (x * (twoPi / tau) * (twoPi / tau)) < 0) := by
      have h1 : 0 ≤ (twoPi / tau) * (twoPi / tau) := mul_self_nonneg _
      have h2 : 0 ≤ x * (twoPi / tau) * (twoPi / tau) := by
        rw [mul_assoc]; exact mul_nonneg hx h1
      exact not_lt.2 (mul_nonneg hx h2)
    simp only [CalcCriticallyDampedHarmonicOscillatorParameters, DReal.mul,
      DReal.sqrtD, hnn, if_false, mul_one]
  refine ⟨rfl, hosc m hm, ?_⟩
  have hww : 0 < (twoPi / tau) * (twoPi / tau) := mul_pos hw hw
  rw [CalcPrismaticJointPenaltyParameters]
  simp only [Bool.false_eq_true, if_false]
  rw [hosc mp hmp, hosc mc hmc]
  rw [PickLessStiffPenaltyParameters]
  by_cases h : mp < mc
  · have hlt : mp * (twoPi / tau) * (twoPi / tau) < mc * (twoPi / tau) * (twoPi / tau) := by
      rw [mul_assoc, mul_assoc]
      exact (mul_lt_mul_right hww).2 h
    simp only [DReal.ltD, decide_eq_true_eq, hlt, if_true, min_eq_left (le_of_lt h),
      hosc mp hmp]
  · have hle : mc ≤ mp := not_lt.1 h
    have hnlt : ¬ (mp * (twoPi / tau) * (twoPi / tau) < mc * (twoPi / tau) * (twoPi / tau)) := by
      rw [mul_assoc, mul_assoc]
      exact not_lt.2 ((mul_le_mul_right hww).2 hle)
    simp only [DReal.ltD, decide_eq_true_eq, hnlt, if_false, min_eq_right hle,
      hosc mc hmc]

/-- Witness for `prismatic_penalty_parameters_amended` at 2π ≈ 6, τ = 1,
s = id, masses 2 (parent) and 3 (child): the parent estimate wins. -/
theorem prismatic_penalty_parameters_amended_witness :
    (0 : ℚ) < 6 / 1 ∧ (0 : ℚ) ≤ 1 ∧ (0 : ℚ) ≤ 2 ∧ (0 : ℚ) ≤ 3 ∧
    CalcPrismaticJointPenaltyParameters (6 : ℚ) id
        ⟨false, .fin 2⟩ ⟨false, .fin 3⟩ 1
      = CalcCriticallyDampedHarmonicOscillatorParameters (6 : ℚ) id 1
          (.fin (min 2 3)) := by
  refine ⟨by norm_num, by norm_num, by norm_num, by norm_num, ?_⟩
  exact (prismatic_penalty_parameters_amended 6 1 1 2 3 id
    ⟨false, .fin 2⟩ ⟨false, .fin 3⟩ (by norm_num) (by norm_num)
    (by norm_num) (by norm_num)).2.2

/-- C2: one discrete update step from prior state (q0, v0) with step size h
computes exactly v_next = v0 + h·vdot and q_next = q0 + h·qdot_next with
qdot_next = map(q0, v_next); with vdot = 0 identically, v_next = v0 and
q_next = q0 + h·map(q0, v0); and the new discrete state is the single pair
(q_next, v_next). -/
theorem discrete_step_semi_implicit_euler {nq nv : ℕ} (h : α)
    (vdotFn : (Fin nq → α) → (Fin nv → α) → (Fin nv → α))
    (mapQDot : (Fin nq → α) → (Fin nv → α) → (Fin nq → α))
    (q0 : Fin nq → α) (v0 : Fin nv → α) :
    ((CalcDiscreteStep h vdotFn mapQDot (q0, v0)).2
        = fun i => v0 i + h * vdotFn q0 v0 i) ∧
    ((CalcDiscreteStep h vdotFn mapQDot (q0, v0)).1
        = fun i => q0 i
            + h * mapQDot q0 (CalcDiscreteStep h vdotFn mapQDot (q0, v0)).2 i) ∧
    ((∀ q v i, vdotFn q v i = 0) →
      CalcDiscreteStep h vdotFn mapQDot (q0, v0)
        = ((fun i => q0 i + h * mapQDot q0 v0 i), v0)) := by
  refine ⟨rfl, rfl, ?_⟩
  intro hz
  have hv : (fun i => v0 i + h * vdotFn q0 v0 i) = v0 := by
    funext i; rw [hz q0 v0 i, mul_zero, add_zero]
  simp only [CalcDiscreteStep]
  rw [hv]

/-- Witness for `discrete_step_semi_implicit_euler` with nq = nv = 1,
vdot ≡ 0, map(q, v) = v, h = 1/2, q0 = 1, v0 = 2: the step returns
(q0 + h·v0, v0). -/
theorem discrete_step_semi_implicit_euler_witness :
    (∀ (q v : Fin 1 → ℚ) (i : Fin 1),
      (fun (_ : Fin 1 → ℚ) (_ : Fin 1 → ℚ) (_ : Fin 1) => (0 : ℚ)) q v i = 0) ∧
    CalcDiscreteStep (1/2 : ℚ)
        (fun (_ : Fin 1 → ℚ) (_ : Fin 1 → ℚ) (_ : Fin 1) => (0 : ℚ))
        (fun (_ : Fin 1 → ℚ) (v : Fin 1 → ℚ) => v)
        ((fun _ => 1), (fun _ => 2))
      = ((fun i => (1 : ℚ) + (1/2 : ℚ) * (fun (_ : Fin 1) => (2 : ℚ)) i),
          (fun _ => (2 : ℚ))) :=
  ⟨fun _ _ _ => rfl,
    (discrete_step_semi_implicit_euler (1/2 : ℚ)
        (fun _ _ _ => 0) (fun _ v => v) (fun _ => 1) (fun _ => 2)).2.2
      (fun _ _ _ => rfl)⟩

/-- C3: entering non-contact-force evaluation while the in-progress marker is
true fails immediately with the algebraic-loop error, for every body (so the
second, inner entry of a re-entrant evaluation fails rather than recursing);
a re-entrant evaluation started with a clear marker surfaces that error and
still resets the marker to false on the error exit path; a wholly separate
later evaluation (marker false) succeeds; and every fresh evaluation leaves
the marker false regardless of how the body exits. -/
theorem algebraic_loop_guard (body innerBody : Bool → Except String Bool) :
    CalcNonContactForces body true
      = (Except.error algebraicLoopMessage, true) ∧
    CalcNonContactForces (reentrantBody innerBody) false
      = (Except.error algebraicLoopMessage, false) ∧
    CalcNonContactForces (fun m => .ok m) false = (Except.ok (), false) ∧
    (CalcNonContactForces body false).2 = false := by
  refine ⟨rfl, rfl, rfl, ?_⟩
  rw [CalcNonContactForces, if_neg (by simp)]
  cases body true <;> rfl

/-- C7: if the all-instances actuation port has a value and some
per-model-instance actuation port also has a value (the earlier instances in
index order having none), assembly fails with the error naming that
conflicting model instance; and if the all-instances port has no value, then
an instance with actuated DoFs whose own port has no value (the earlier
instances being either unactuated or connected) makes assembly fail with the
error naming that model instance. -/
theorem assemble_actuation_input_errors (u : List α)
    (pre post : List (ModelInstanceActuation α))
    (m : ModelInstanceActuation α) :
    ((∀ mi ∈ pre, mi.port = none) → m.port.isSome = true →
      AssembleActuationInput (some u) (pre ++ m :: post)
        = .error (bothConnectedMessage m.name)) ∧
    ((∀ mi ∈ pre, mi.numActuatedDofs = 0 ∨ mi.port.isSome = true) →
      m.numActuatedDofs ≠ 0 → m.port = none →
      AssembleActuationInput none (pre ++ m :: post)
        = .error (mustBeConnectedMessage m.name)) := by
  constructor
  · intro hpre hm
    have hfind : ∀ (l : List (ModelInstanceActuation α)),
        (∀ mi ∈ l, mi.port = none) →
        (l ++ m :: post).find? (fun x => x.port.isSome) = some m := by
      intro l
      induction l with
      | nil =>
        intro _
        simp only [List.nil_append]
        exact List.find?_cons_of_pos _ hm
      | cons a rest ih =>
        intro h
        have ha : a.port = none := h a (List.mem_cons_self a rest)
        simp only [List.cons_append]
        rw [List.find?_cons_of_neg _ (by simp [ha])]
        exact ih (fun x hx => h x (List.mem_cons_of_mem a hx))
    simp only [AssembleActuationInput, hfind pre hpre]
  · intro hpre hdof hport
    have hrun : ∀ (l : List (ModelInstanceActuation α)),
        (∀ mi ∈ l, mi.numActuatedDofs = 0 ∨ mi.port.isSome = true) →
        assemblePerInstanceActuation (l ++ m :: post)
          = .error (mustBeConnectedMessage m.name) := by
      intro l
      induction l with
      | nil =>
        intro _
        simp only [List.nil_append, assemblePerInstanceActuation]
        rw [if_neg hdof, hport]
      | cons a rest ih =>
        intro h
        have ha := h a (List.mem_cons_self a rest)
        have hrest := fun x hx => h x (List.mem_cons_of_mem a hx)
        simp only [List.cons_append, assemblePerInstanceActuation]
        by_cases hd : a.numActuatedDofs = 0
        · rw [if_pos hd]
          exact ih hrest
        · rw [if_neg hd]
          have hsome : a.port.isSome = true := (ha.resolve_left hd)
          obtain ⟨ua, hua⟩ := Option.isSome_iff_exists.1 hsome
          simp only [List.append_eq]
          rw [hua, ih hrest]
    exact hrun pre hpre

/-- Witness for `assemble_actuation_input_errors`: one unactuated instance
"arm" followed by an actuated instance "gripper" with no value on its port;
with the all-instances port absent, assembly fails naming "gripper". -/
theorem assemble_actuation_input_errors_witness :
    (∀ mi ∈ ([⟨"arm", 0, none⟩] : List (ModelInstanceActuation ℚ)),
      mi.numActuatedDofs = 0 ∨ mi.port.isSome = true) ∧
    ((⟨"gripper", 2, none⟩ : ModelInstanceActuation ℚ)).numActuatedDofs ≠ 0 ∧
    AssembleActuationInput none
        ([⟨"arm", 0, none⟩] ++ (⟨"gripper", 2, none⟩ : ModelInstanceActuation ℚ)
          :: [])
      = .error (mustBeConnectedMessage "gripper") := by
  refine ⟨?_, by norm_num, ?_⟩
  · intro mi hmi
    simp only [List.mem_singleton] at hmi
    subst hmi
    exact Or.inl rfl
  · exact (assemble_actuation_input_errors [] [⟨"arm", 0, none⟩] []
      ⟨"gripper", 2, none⟩).2
      (by intro mi hmi
          simp only [List.mem_singleton] at hmi
          subst hmi
          exact Or.inl rfl)
      (by norm_num) rfl

/-- C6 (code bug at multibody_plant.cc:1961): the dynamic friction coefficient
used for a hydroelastic contact surface is combined from the friction of geometry M
with itself — the friction properties of geometry N are ignored.  With the
Drake combination rule 2·μ₁·μ₂/(μ₁+μ₂), friction 1/2 on M and 1/4 on N yields 1/2
(and still 1/2 after changing the friction of N to 7), although combining
the coefficients of both geometries would give 1/3. -/
theorem hydroelastic_friction_ignores_geometry_N :
    hydroelasticSurfaceDynamicFriction
        (fun a b => (⟨2 * a.staticFriction * b.staticFriction
            / (a.staticFriction + b.staticFriction),
          2 * a.dynamicFriction * b.dynamicFriction
            / (a.dynamicFriction + b.dynamicFriction)⟩ : CoulombFrictionCoeffs ℚ))
        (fun i => if i = 0 then ⟨1/2, 1/2⟩ else ⟨1/4, 1/4⟩) 0 1 = 1/2 ∧
    hydroelasticSurfaceDynamicFriction
        (fun a b => (⟨2 * a.staticFriction * b.staticFriction
            / (a.staticFriction + b.staticFriction),
          2 * a.dynamicFriction * b.dynamicFriction
            / (a.dynamicFriction + b.dynamicFriction)⟩ : CoulombFrictionCoeffs ℚ))
        (fun i => if i = 0 then ⟨1/2, 1/2⟩ else ⟨7, 7⟩) 0 1 = 1/2 ∧
    ((fun (a b : CoulombFrictionCoeffs ℚ) =>
        (⟨2 * a.staticFriction * b.staticFriction
            / (a.staticFriction + b.staticFriction),
          2 * a.dynamicFriction * b.dynamicFriction
            / (a.dynamicFriction + b.dynamicFriction)⟩ : CoulombFrictionCoeffs ℚ))
      ⟨1/2, 1/2⟩ ⟨1/4, 1/4⟩).dynamicFriction = 1/3 := by
  refine ⟨?_, ?_, ?_⟩ <;> norm_num [hydroelasticSurfaceDynamicFriction]

/-- C9: in every contact-force accumulation pass — point-penalty and
hydroelastic — contributions whose body is the world body are skipped, so
(provided no other body shares the node index of the world body) the world
entry of the per-body accumulator keeps its initial value: unchanged for the
penalty pass, and exactly zero for the hydroelastic pass, whose accumulator
is zero-initialized. -/
theorem contact_accumulation_skips_world
    (shiftF : SpatialForceV α → V3 α → SpatialForceV α)
    (worldIndex : ℕ) (nodeIndex : ℕ → ℕ) (X_WB_translation : ℕ → V3 α)
    (geomToBody : ℕ → ℕ)
    (tractionForces : ℕ → ℕ → SpatialForceV α × SpatialForceV α)
    (contacts : List (PointPairContactRecord α)) (surfaces : List (ℕ × ℕ))
    (F0 : ℕ → SpatialForceV α)
    (hinj : ∀ b, nodeIndex b = nodeIndex worldIndex → b = worldIndex) :
    CalcAndAddContactForcesByPenaltyMethod shiftF worldIndex nodeIndex
        X_WB_translation contacts F0 (nodeIndex worldIndex)
      = F0 (nodeIndex worldIndex) ∧
    CalcHydroelasticContactForces geomToBody worldIndex nodeIndex
        tractionForces surfaces (nodeIndex worldIndex) = 0 := by
  have hne : ∀ b, b ≠ worldIndex → nodeIndex worldIndex ≠ nodeIndex b :=
    fun b hb he => hb (hinj b he.symm)
  have hpen : ∀ (F : ℕ → SpatialForceV α) (c : PointPairContactRecord α),
      penaltyMethodLoopBody shiftF worldIndex nodeIndex X_WB_translation F c
          (nodeIndex worldIndex)
        = F (nodeIndex worldIndex) := by
    intro F c
    simp only [penaltyMethodLoopBody]
    by_cases hB : c.bodyB_index ≠ worldIndex
    · rw [if_pos hB, Function.update_noteq (hne _ hB)]
      by_cases hA : c.bodyA_index ≠ worldIndex
      · rw [if_pos hA, Function.update_noteq (hne _ hA)]
      · rw [if_neg hA]
    · rw [if_neg hB]
      by_cases hA : c.bodyA_index ≠ worldIndex
      · rw [if_pos hA, Function.update_noteq (hne _ hA)]
      · rw [if_neg hA]
  have hhyd : ∀ (F : ℕ → SpatialForceV α) (s : ℕ × ℕ),
      hydroelasticLoopBody geomToBody worldIndex nodeIndex tractionForces F s
          (nodeIndex worldIndex)
        = F (nodeIndex worldIndex) := by
    intro F s
    simp only [hydroelasticLoopBody]
    by_cases hB : geomToBody s.2 ≠ worldIndex
    · rw [if_pos hB, Function.update_noteq (hne _ hB)]
      by_cases hA : geomToBody s.1 ≠ worldIndex
      · rw [if_pos hA, Function.update_noteq (hne _ hA)]
      · rw [if_neg hA]
    · rw [if_neg hB]
      by_cases hA : geomToBody s.1 ≠ worldIndex
      · rw [if_pos hA, Function.update_noteq (hne _ hA)]
      · rw [if_neg hA]
  constructor
  · rw [CalcAndAddContactForcesByPenaltyMethod]
    induction contacts generalizing F0 with
    | nil => rfl
    | cons c rest ih =>
      rw [List.foldl_cons, ih, hpen]
  · rw [CalcHydroelasticContactForces]
    have hgen : ∀ (F : ℕ → SpatialForceV α),
        surfaces.foldl (hydroelasticLoopBody geomToBody worldIndex nodeIndex
          tractionForces) F (nodeIndex worldIndex) = F (nodeIndex worldIndex) := by
      induction surfaces with
      | nil => intro F; rfl
      | cons s rest ih =>
        intro F
        rw [List.foldl_cons, ih, hhyd]
    rw [hgen]

/-- Witness for `contact_accumulation_skips_world`: world index 0, identity
node indexing, one contact between bodies 0 (world) and 1 and one surface
between geometries mapped to bodies 1 and 2; the world entry stays at its
initial value (penalty pass) and at zero (hydroelastic pass). -/
theorem contact_accumulation_skips_world_witness :
    (∀ b : ℕ, id b = id 0 → b = 0) ∧
    CalcAndAddContactForcesByPenaltyMethod
        (fun (F : SpatialForceV ℚ) (_ : V3 ℚ) => F) 0 id (fun _ => 0)
        [⟨0, 1, ⟨1, 2, 3⟩, ⟨0, 0, 0⟩⟩] (fun _ => 0) (id 0)
      = (fun (_ : ℕ) => (0 : SpatialForceV ℚ)) (id 0) ∧
    CalcHydroelasticContactForces id 0 id
        (fun _ _ => (⟨⟨1, 1, 1⟩, ⟨1, 1, 1⟩⟩, ⟨⟨2, 2, 2⟩, ⟨2, 2, 2⟩⟩))
        [(1, 2)] (id 0) = (0 : SpatialForceV ℚ) :=
  ⟨fun _ h => h,
    (contact_accumulation_skips_world (fun F _ => F) 0 id (fun _ => 0) id
      (fun _ _ => (⟨⟨1, 1, 1⟩, ⟨1, 1, 1⟩⟩, ⟨⟨2, 2, 2⟩, ⟨2, 2, 2⟩⟩))
      [⟨0, 1, ⟨1, 2, 3⟩, ⟨0, 0, 0⟩⟩] [(1, 2)] (fun _ => 0)
      (fun _ h => h)).1,
    (contact_accumulation_skips_world (fun F _ => F) 0 id (fun _ => 0) id
      (fun _ _ => (⟨⟨1, 1, 1⟩, ⟨1, 1, 1⟩⟩, ⟨⟨2, 2, 2⟩, ⟨2, 2, 2⟩⟩))
      [⟨0, 1, ⟨1, 2, 3⟩, ⟨0, 0, 0⟩⟩] [(1, 2)] (fun _ => 0)
      (fun _ h => h)).2⟩

/-- C10: for a plant with zero registered collision geometries, the
contact-related paths succeed with the geometry query input port
disconnected: `IsValidGeometryInput` accepts the context whatever the state of
the port, `CalcPointPairPenetrations` returns the empty list without consulting
the port, and the penalty-method contact-force accumulation returns with the
accumulator untouched. -/
theorem zero_collision_geometries_contact_paths (b : Bool)
    (shiftF : SpatialForceV α → V3 α → SpatialForceV α)
    (worldIndex : ℕ) (nodeIndex : ℕ → ℕ) (X_WB_translation : ℕ → V3 α)
    (contactResultsOf :
      List (PenetrationAsPointPairData α) → List (PointPairContactRecord α))
    (F0 : ℕ → SpatialForceV α) :
    IsValidGeometryInput 0 b = true ∧
    CalcPointPairPenetrations 0
        (none : Option (List (PenetrationAsPointPairData α))) = .ok [] ∧
    CalcAndAddContactForcesByPenaltyMethodGuarded shiftF worldIndex nodeIndex
        X_WB_translation contactResultsOf 0 none F0 = .ok F0 := by
  refine ⟨?_, rfl, rfl⟩
  simp [IsValidGeometryInput]

/-- C1 (amended): for every point-contact pair with a unit contact normal,
the continuous point-contact path computes the normal force magnitude as
`fn = k·x·(1 + d·vn)` with `(k, d)` the combined stiffness and damping of the
two geometries and `vn = (v_WBc − v_WAc)·n̂_BA` the relative normal velocity,
whose positive sign means the bodies are approaching (the penetration depth
is growing; cf. multibody_plant.cc:1789); a contact force for the pair is
added iff `fn > 0`, and when it is added the reported force on body B has
normal component `−fn` (the normal force on A is `fn·n̂_BA`) and the stored
relative normal velocity is `vn`. -/
theorem point_pair_normal_force_gating
    (sqrtF : α → α) (inv : α) (combineParams : α → α → α → α → α × α)
    (pair : PenetrationAsPointPairData α) (p_WAo p_WBo : V3 α)
    (V_WA V_WB : SpatialVelocityV α) (kA kB dA dB muS muD : α)
    (p_WC : V3 α) (vn k d fn : α)
    (hn : pair.nhat_BA_W.dot pair.nhat_BA_W = 1)
    (hpWC : p_WC = (1 / 2 : α) • (pair.p_WCa + pair.p_WCb))
    (hvn : vn = ((V_WB.shift (-(p_WBo - p_WC))).trans
        - (V_WA.shift (-(p_WAo - p_WC))).trans).dot pair.nhat_BA_W)
    (hk : k = (combineParams kA kB dA dB).1)
    (hd : d = (combineParams kA kB dA dB).2)
    (hfn : fn = k * pair.depth * (1 + d * vn)) :
    ((AppendContactResultsContinuousPointPair sqrtF inv combineParams pair
        p_WAo p_WBo V_WA V_WB kA kB dA dB muS muD).isSome = true ↔ 0 < fn) ∧
    (∀ info, AppendContactResultsContinuousPointPair sqrtF inv combineParams
        pair p_WAo p_WBo V_WA V_WB kA kB dA dB muS muD = some info →
      info.f_Bc_W.dot pair.nhat_BA_W = -fn ∧ info.vn = vn) := by
  subst hfn hd hk hvn hpWC
  simp only [AppendContactResultsContinuousPointPair]
  constructor
  · split_ifs with h1 h2
    · exact iff_of_true rfl h1
    · exact iff_of_true rfl h1
    · exact iff_of_false (by simp) h1
  · intro info hinfo
    split_ifs at hinfo with h1 h2
    · cases hinfo
      refine ⟨?_, rfl⟩
      simp only [V3.neg_dot, V3.add_dot, V3.smul_dot, V3.sub_dot]
      rw [hn]
      ring
    · cases hinfo
      refine ⟨?_, rfl⟩
      simp only [V3.neg_dot, V3.add_dot, V3.smul_dot, V3.zero_dot]
      rw [hn]
      ring

/-- Witness for `point_pair_normal_force_gating`: a pair at depth 1 with unit
normal (1,0,0), both bodies at rest (vn = 0), combined parameters k = d = 1,
so fn = 1 > 0 and a contact force with normal component −1 on body B is
added. -/
theorem point_pair_normal_force_gating_witness :
    ((⟨1, 0, 0⟩ : V3 ℚ).dot ⟨1, 0, 0⟩ = 1) ∧
    (((AppendContactResultsContinuousPointPair (id : ℚ → ℚ) 1
          (fun _ _ _ _ => (1, 1)) ⟨1, ⟨1, 0, 0⟩, ⟨0, 0, 0⟩, ⟨0, 0, 0⟩⟩
          ⟨0, 0, 0⟩ ⟨0, 0, 0⟩ ⟨⟨0, 0, 0⟩, ⟨0, 0, 0⟩⟩ ⟨⟨0, 0, 0⟩, ⟨0, 0, 0⟩⟩
          2 2 1 1 1 (1/2)).isSome = true ↔ 0 < (1 : ℚ)) ∧
      ∀ info, AppendContactResultsContinuousPointPair (id : ℚ → ℚ) 1
          (fun _ _ _ _ => (1, 1)) ⟨1, ⟨1, 0, 0⟩, ⟨0, 0, 0⟩, ⟨0, 0, 0⟩⟩
          ⟨0, 0, 0⟩ ⟨0, 0, 0⟩ ⟨⟨0, 0, 0⟩, ⟨0, 0, 0⟩⟩ ⟨⟨0, 0, 0⟩, ⟨0, 0, 0⟩⟩
          2 2 1 1 1 (1/2) = some info →
        info.f_Bc_W.dot (⟨1, 0, 0⟩ : V3 ℚ) = -1 ∧ info.vn = 0) := by
  refine ⟨by norm_num [V3.dot], ?_⟩
  exact point_pair_normal_force_gating id 1 (fun _ _ _ _ => (1, 1))
    ⟨1, ⟨1, 0, 0⟩, ⟨0, 0, 0⟩, ⟨0, 0, 0⟩⟩ ⟨0, 0, 0⟩ ⟨0, 0, 0⟩
    ⟨⟨0, 0, 0⟩, ⟨0, 0, 0⟩⟩ ⟨⟨0, 0, 0⟩, ⟨0, 0, 0⟩⟩ 2 2 1 1 1 (1/2)
    ⟨0, 0, 0⟩ 0 1 1 1
    (by norm_num [V3.dot])
    (by norm_num [V3.smul_def, V3.add_def, V3.mk.injEq])
    (by norm_num [SpatialVelocityV.shift, V3.cross, V3.add_def, V3.sub_def,
      V3.neg_def, V3.smul_def, V3.dot])
    rfl rfl (by norm_num)

/-- C1 counterexample to the claimed sign convention ("positive vn means the
bodies are separating").  Configuration: depth 1, unit normal n̂_BA = (1,0,0),
witness points and body origins at the origin, body B at rest, and body A
translating with velocity +n̂_BA — the direction of the contact force on A
(multibody_plant.cc:1808-1809), i.e. the direction in which A retreats from
B, so the bodies separate at unit rate.  Per-geometry stiffness 2 and
dissipation 1 on both sides give combined k = d = 1 under the series
combination rule.  Under the convention of the claim this separating pair has
vn = +1, hence fn = k·x·(1 + d·vn) = 2 > 0 and a contact force must be
added; the code computes vn = −1, fn = 0, and adds none.  The mirrored
configuration with A translating toward B (approaching) is where the code
computes vn = +1 and adds the force — positive vn means approach, not
separation. -/
theorem point_pair_separating_sign_counterexample :
    AppendContactResultsContinuousPointPair (id : ℚ → ℚ) 1
        (fun k1 k2 d1 d2 =>
          (k1 * k2 / (k1 + k2), (d1 * k2 + d2 * k1) / (k1 + k2)))
        ⟨1, ⟨1, 0, 0⟩, ⟨0, 0, 0⟩, ⟨0, 0, 0⟩⟩ ⟨0, 0, 0⟩ ⟨0, 0, 0⟩
        ⟨⟨0, 0, 0⟩, ⟨1, 0, 0⟩⟩ ⟨⟨0, 0, 0⟩, ⟨0, 0, 0⟩⟩ 2 2 1 1 1 (1/2)
      = none ∧
    (0 : ℚ) < 2 * 2 / (2 + 2) * 1 * (1 + (1 * 2 + 1 * 2) / (2 + 2) * 1) ∧
    (AppendContactResultsContinuousPointPair (id : ℚ → ℚ) 1
        (fun k1 k2 d1 d2 =>
          (k1 * k2 / (k1 + k2), (d1 * k2 + d2 * k1) / (k1 + k2)))
        ⟨1, ⟨1, 0, 0⟩, ⟨0, 0, 0⟩, ⟨0, 0, 0⟩⟩ ⟨0, 0, 0⟩ ⟨0, 0, 0⟩
        ⟨⟨0, 0, 0⟩, ⟨-1, 0, 0⟩⟩ ⟨⟨0, 0, 0⟩, ⟨0, 0, 0⟩⟩ 2 2 1 1 1
        (1/2)).isSome = true := by
  refine ⟨?_, by norm_num, ?_⟩
  · norm_num [AppendContactResultsContinuousPointPair, SpatialVelocityV.shift,
      V3.dot, V3.cross, V3.add_def, V3.sub_def, V3.neg_def, V3.smul_def,
      V3.zero_def]
  · norm_num [AppendContactResultsContinuousPointPair, SpatialVelocityV.shift,
      V3.dot, V3.cross, V3.add_def, V3.sub_def, V3.neg_def, V3.smul_def,
      V3.zero_def]

end Drake
